import Mathlib

/-!
Verification of the market-simulator core of `game.py` (class `MarketSimulator`
and the mutation callbacks of `create_interactive_game`).

Real arithmetic of the source is modelled over `ℚ`.  The simulator object is a
record; Python's in-place mutation becomes explicit state passing, each method
that mutates `self` returns the new state.  Divisions whose denominator can be
zero in the source (where Python would raise `ZeroDivisionError`) additionally
get `Checked` variants returning `Option`, used to reason about reachability of
the error branch.
-/

/-- State of `MarketSimulator`: the fields assigned in `__init__` and the
derived fields assigned by `update_curves` / `find_equilibrium`. -/
structure MarketSimulator where
  base_demand : ℚ
  base_supply : ℚ
  demand_elasticity : ℚ
  supply_elasticity : ℚ
  tax_rate : ℚ
  history : List (ℚ × ℚ × ℚ × ℚ)
  demand_intercept : ℚ
  supply_intercept : ℚ
  equilibrium_price : ℚ
  equilibrium_quantity : ℚ

/-- `MarketSimulator.demand_function`. -/
def demand_function (s : MarketSimulator) (price : ℚ) : ℚ :=
  s.demand_elasticity * (price - s.demand_intercept)

/-- `MarketSimulator.supply_function`. -/
def supply_function (s : MarketSimulator) (price : ℚ) : ℚ :=
  s.supply_elasticity * (price - s.supply_intercept)

/-- `MarketSimulator.taxed_supply_function`. -/
def taxed_supply_function (s : MarketSimulator) (price : ℚ) : ℚ :=
  s.supply_elasticity * ((price - s.tax_rate) - s.supply_intercept)

/-- `MarketSimulator.find_equilibrium`: stores and returns the analytical
equilibrium price and the clamped quantity. -/
def find_equilibrium (s : MarketSimulator) : MarketSimulator × ℚ × ℚ :=
  let numerator := s.supply_elasticity * (s.tax_rate + s.supply_intercept)
    - s.demand_elasticity * s.demand_intercept
  let denominator := s.supply_elasticity - s.demand_elasticity
  let price := numerator / denominator
  let quantity := max 0 (demand_function s price)
  ({ s with equilibrium_price := price, equilibrium_quantity := quantity },
    price, quantity)

/-- The two intercept assignments at the top of `MarketSimulator.update_curves`. -/
def recompute_intercepts (s : MarketSimulator) : MarketSimulator :=
  { s with demand_intercept := 10 - 100 / s.demand_elasticity,
           supply_intercept := 10 - 100 / s.supply_elasticity }

/-- `MarketSimulator.update_curves`: recompute both intercepts from the
baseline point (P=10, Q=100), then re-solve the equilibrium. -/
def update_curves (s : MarketSimulator) : MarketSimulator :=
  (find_equilibrium (recompute_intercepts s)).1

/-- `MarketSimulator.__init__`: field initialisation followed by
`update_curves` (which overwrites the four derived fields). -/
def initSim (demand_elasticity supply_elasticity : ℚ) : MarketSimulator :=
  update_curves
    { base_demand := 100, base_supply := 100,
      demand_elasticity := demand_elasticity,
      supply_elasticity := supply_elasticity,
      tax_rate := 0, history := [],
      demand_intercept := 0, supply_intercept := 0,
      equilibrium_price := 0, equilibrium_quantity := 0 }

/-- `MarketSimulator.calculate_welfare`: returns the post-call state together
with `(consumer_surplus, producer_surplus, tax_revenue, total_welfare,
deadweight_loss)`.  The zero-tax counterfactual is computed by temporarily
setting `tax_rate := 0` and calling `find_equilibrium` (which also overwrites
the stored equilibrium fields); only `tax_rate` is restored afterwards. -/
def calculate_welfare (s : MarketSimulator) : MarketSimulator × ℚ × ℚ × ℚ × ℚ × ℚ :=
  let consumer_price := s.equilibrium_price
  let producer_price := consumer_price - s.tax_rate
  let quantity := s.equilibrium_quantity
  let consumer_surplus := (1/2) * (s.demand_intercept - consumer_price) * quantity
  let producer_surplus := (1/2) * (producer_price - s.supply_intercept) * quantity
  let tax_revenue := s.tax_rate * quantity
  let total_welfare := consumer_surplus + producer_surplus + tax_revenue
  let original_tax := s.tax_rate
  let r := find_equilibrium { s with tax_rate := 0 }
  let zero_tax_cs := (1/2) * (r.1.demand_intercept - r.2.1) * r.2.2
  let zero_tax_ps := (1/2) * (r.2.1 - r.1.supply_intercept) * r.2.2
  let zero_tax_total := zero_tax_cs + zero_tax_ps
  let s2 := { r.1 with tax_rate := original_tax }
  let deadweight_loss := max 0 (zero_tax_total - total_welfare)
  (s2, consumer_surplus, producer_surplus, tax_revenue, total_welfare,
    deadweight_loss)

/-- The elasticity-slider callback `update_elasticity` in
`create_interactive_game`: the two unconditional slider assignments. -/
def set_elasticities (s : MarketSimulator) (dVal sVal : ℚ) : MarketSimulator :=
  { s with demand_elasticity := dVal, supply_elasticity := sVal }

/-- `update_elasticity` in `create_interactive_game`: assign both elasticities
from the sliders, then `update_curves`. -/
def update_elasticity (s : MarketSimulator) (dVal sVal : ℚ) : MarketSimulator :=
  update_curves (set_elasticities s dVal sVal)

/-- The state-relevant part of the `update` callback in
`create_interactive_game`: assign `tax_rate` from the slider, call
`find_equilibrium`, then `calculate_welfare` (the rest of the callback only
redraws widgets). -/
def update_tax (s : MarketSimulator) (val : ℚ) : MarketSimulator :=
  (calculate_welfare ((find_equilibrium { s with tax_rate := val }).1)).1

/-- `find_equilibrium` with the division guarded as Python behaves: `none`
models the `ZeroDivisionError` raised when the denominator is zero. -/
def find_equilibriumChecked (s : MarketSimulator) :
    Option (MarketSimulator × ℚ × ℚ) :=
  if s.supply_elasticity - s.demand_elasticity = 0 then none
  else some (find_equilibrium s)

/-- The intercept assignments with their divisions guarded: `none` models the
`ZeroDivisionError` raised when an elasticity is zero. -/
def recompute_interceptsChecked (s : MarketSimulator) : Option MarketSimulator :=
  if s.demand_elasticity = 0 ∨ s.supply_elasticity = 0 then none
  else some (recompute_intercepts s)

/-- `update_curves` with every division guarded. -/
def update_curvesChecked (s : MarketSimulator) : Option MarketSimulator :=
  (recompute_interceptsChecked s).bind fun s1 =>
    (find_equilibriumChecked s1).map Prod.fst

/-- Total welfare read off a state, following the spec formulas
consumer surplus + producer surplus + tax revenue. -/
def totalWelfareAt (s : MarketSimulator) : ℚ :=
  (1/2) * (s.demand_intercept - s.equilibrium_price) * s.equilibrium_quantity
    + (1/2) * ((s.equilibrium_price - s.tax_rate) - s.supply_intercept)
        * s.equilibrium_quantity
    + s.tax_rate * s.equilibrium_quantity

/-- The total welfare at the equilibrium re-solved with `tax_rate = 0`, as the
spec describes the deadweight-loss baseline. -/
def zeroTaxTotalWelfare (s : MarketSimulator) : ℚ :=
  totalWelfareAt (find_equilibrium { s with tax_rate := 0 }).1

section ProjectionLemmas

variable (s : MarketSimulator)

@[simp] lemma find_equilibrium_fst_de :
    (find_equilibrium s).1.demand_elasticity = s.demand_elasticity := rfl

@[simp] lemma find_equilibrium_fst_se :
    (find_equilibrium s).1.supply_elasticity = s.supply_elasticity := rfl

@[simp] lemma find_equilibrium_fst_tax :
    (find_equilibrium s).1.tax_rate = s.tax_rate := rfl

@[simp] lemma find_equilibrium_fst_di :
    (find_equilibrium s).1.demand_intercept = s.demand_intercept := rfl

@[simp] lemma find_equilibrium_fst_si :
    (find_equilibrium s).1.supply_intercept = s.supply_intercept := rfl

@[simp] lemma find_equilibrium_fst_history :
    (find_equilibrium s).1.history = s.history := rfl

lemma find_equilibrium_price_def :
    (find_equilibrium s).2.1
      = (s.supply_elasticity * (s.tax_rate + s.supply_intercept)
          - s.demand_elasticity * s.demand_intercept)
        / (s.supply_elasticity - s.demand_elasticity) := rfl

lemma find_equilibrium_qty_def :
    (find_equilibrium s).2.2 = max 0 (demand_function s (find_equilibrium s).2.1) := rfl

@[simp] lemma find_equilibrium_fst_price :
    (find_equilibrium s).1.equilibrium_price = (find_equilibrium s).2.1 := rfl

@[simp] lemma find_equilibrium_fst_qty :
    (find_equilibrium s).1.equilibrium_quantity = (find_equilibrium s).2.2 := rfl

@[simp] lemma recompute_intercepts_de :
    (recompute_intercepts s).demand_elasticity = s.demand_elasticity := rfl

@[simp] lemma recompute_intercepts_se :
    (recompute_intercepts s).supply_elasticity = s.supply_elasticity := rfl

@[simp] lemma recompute_intercepts_tax :
    (recompute_intercepts s).tax_rate = s.tax_rate := rfl

@[simp] lemma recompute_intercepts_history :
    (recompute_intercepts s).history = s.history := rfl

@[simp] lemma recompute_intercepts_di :
    (recompute_intercepts s).demand_intercept = 10 - 100 / s.demand_elasticity := rfl

@[simp] lemma recompute_intercepts_si :
    (recompute_intercepts s).supply_intercept = 10 - 100 / s.supply_elasticity := rfl

@[simp] lemma update_curves_de :
    (update_curves s).demand_elasticity = s.demand_elasticity := rfl

@[simp] lemma update_curves_se :
    (update_curves s).supply_elasticity = s.supply_elasticity := rfl

@[simp] lemma update_curves_tax :
    (update_curves s).tax_rate = s.tax_rate := rfl

@[simp] lemma update_curves_history :
    (update_curves s).history = s.history := rfl

@[simp] lemma update_curves_di :
    (update_curves s).demand_intercept = 10 - 100 / s.demand_elasticity := rfl

@[simp] lemma update_curves_si :
    (update_curves s).supply_intercept = 10 - 100 / s.supply_elasticity := rfl

@[simp] lemma calculate_welfare_fst_tax :
    (calculate_welfare s).1.tax_rate = s.tax_rate := rfl

@[simp] lemma calculate_welfare_fst_de :
    (calculate_welfare s).1.demand_elasticity = s.demand_elasticity := rfl

@[simp] lemma calculate_welfare_fst_se :
    (calculate_welfare s).1.supply_elasticity = s.supply_elasticity := rfl

@[simp] lemma calculate_welfare_fst_di :
    (calculate_welfare s).1.demand_intercept = s.demand_intercept := rfl

@[simp] lemma calculate_welfare_fst_si :
    (calculate_welfare s).1.supply_intercept = s.supply_intercept := rfl

@[simp] lemma calculate_welfare_fst_history :
    (calculate_welfare s).1.history = s.history := rfl

@[simp] lemma initSim_de (de se : ℚ) : (initSim de se).demand_elasticity = de := rfl

@[simp] lemma initSim_se (de se : ℚ) : (initSim de se).supply_elasticity = se := rfl

@[simp] lemma initSim_tax (de se : ℚ) : (initSim de se).tax_rate = 0 := rfl

@[simp] lemma initSim_history (de se : ℚ) : (initSim de se).history = [] := rfl

@[simp] lemma initSim_di (de se : ℚ) :
    (initSim de se).demand_intercept = 10 - 100 / de := rfl

@[simp] lemma initSim_si (de se : ℚ) :
    (initSim de se).supply_intercept = 10 - 100 / se := rfl

end ProjectionLemmas

/-- Claim C1: for demand_elasticity < 0 < supply_elasticity and tax_rate ≥ 0,
`find_equilibrium` returns the price solving
`demand_elasticity*(P - demand_intercept)
  = supply_elasticity*((P - tax_rate) - supply_intercept)`, given by the
closed-form quotient, and the quantity `max 0 (demand_function P)`, which is
nonnegative. -/
theorem C1_closed_form (s : MarketSimulator)
    (hd : s.demand_elasticity < 0) (hs : 0 < s.supply_elasticity)
    (ht : 0 ≤ s.tax_rate) :
    (find_equilibrium s).2.1
      = (s.supply_elasticity * (s.tax_rate + s.supply_intercept)
          - s.demand_elasticity * s.demand_intercept)
        / (s.supply_elasticity - s.demand_elasticity)
    ∧ s.demand_elasticity * ((find_equilibrium s).2.1 - s.demand_intercept)
        = s.supply_elasticity
            * (((find_equilibrium s).2.1 - s.tax_rate) - s.supply_intercept)
    ∧ (find_equilibrium s).2.2 = max 0 (demand_function s (find_equilibrium s).2.1)
    ∧ 0 ≤ (find_equilibrium s).2.2 := by
  have hden : s.supply_elasticity - s.demand_elasticity ≠ 0 := by
    have : 0 < s.supply_elasticity - s.demand_elasticity := by linarith
    exact this.ne'
  refine ⟨rfl, ?_, rfl, le_max_left _ _⟩
  rw [find_equilibrium_price_def]
  field_simp
  ring

/-- Witness for C1 at the default simulator. -/
theorem C1_witness : 0 ≤ (find_equilibrium (initSim (-3) 3)).2.2 :=
  (C1_closed_form (initSim (-3) 3)
    (by norm_num) (by norm_num) (by norm_num)).2.2.2

/-- Claim C7: the freshly constructed default simulator (elasticities -3 and
3, tax 0) has equilibrium price 10 and quantity 100 (hence within the 0.1
tolerance), tax revenue 0, deadweight loss 0, and consumer surplus plus
producer surplus equal to total welfare. -/
theorem C7_default_scenario :
    (initSim (-3) 3).equilibrium_price = 10
    ∧ (initSim (-3) 3).equilibrium_quantity = 100
    ∧ (calculate_welfare (initSim (-3) 3)).2.2.2.1 = 0
    ∧ (calculate_welfare (initSim (-3) 3)).2.2.2.2.2 = 0
    ∧ (calculate_welfare (initSim (-3) 3)).2.1 + (calculate_welfare (initSim (-3) 3)).2.2.1
        = (calculate_welfare (initSim (-3) 3)).2.2.2.2.1 := by
  norm_num [initSim, update_curves, recompute_intercepts, find_equilibrium,
    calculate_welfare, demand_function, max_def]

/-- Claim C9: for nonzero elasticities, after `update_curves` recomputes the
intercepts both curves pass through the baseline anchor point (price 10,
quantity 100). -/
theorem C9_anchor_point (s : MarketSimulator)
    (hd : s.demand_elasticity ≠ 0) (hs : s.supply_elasticity ≠ 0) :
    demand_function (update_curves s) 10 = 100
    ∧ supply_function (update_curves s) 10 = 100 := by
  constructor
  · have h : demand_function (update_curves s) 10
        = s.demand_elasticity * (10 - (10 - 100 / s.demand_elasticity)) := rfl
    rw [h]
    field_simp
  · have h : supply_function (update_curves s) 10
        = s.supply_elasticity * (10 - (10 - 100 / s.supply_elasticity)) := rfl
    rw [h]
    field_simp

/-- Witness for C9 at the default simulator. -/
theorem C9_witness : demand_function (update_curves (initSim (-3) 3)) 10 = 100 :=
  (C9_anchor_point (initSim (-3) 3) (by norm_num) (by norm_num)).1

/-- Claim C10: under demand_elasticity < 0 < supply_elasticity every division
in `recompute_intercepts` (both elasticities), `find_equilibrium` (the
difference of elasticities) and hence `update_curves` has a nonzero
denominator: the guarded variants never hit their error branch and agree with
the total functions. -/
theorem C10_divisions_safe (s : MarketSimulator)
    (hd : s.demand_elasticity < 0) (hs : 0 < s.supply_elasticity) :
    recompute_interceptsChecked s = some (recompute_intercepts s)
    ∧ find_equilibriumChecked s = some (find_equilibrium s)
    ∧ update_curvesChecked s = some (update_curves s) := by
  have hd0 : s.demand_elasticity ≠ 0 := ne_of_lt hd
  have hs0 : s.supply_elasticity ≠ 0 := ne_of_gt hs
  have hden : s.supply_elasticity - s.demand_elasticity ≠ 0 := by
    have : 0 < s.supply_elasticity - s.demand_elasticity := by linarith
    exact this.ne'
  refine ⟨?_, ?_, ?_⟩
  · simp [recompute_interceptsChecked, hd0, hs0]
  · simp [find_equilibriumChecked, hden]
  · simp [update_curvesChecked, recompute_interceptsChecked, hd0, hs0,
      find_equilibriumChecked, hden, update_curves]

/-- Witness for C10 at the default simulator. -/
theorem C10_witness :
    update_curvesChecked (initSim (-3) 3) = some (update_curves (initSim (-3) 3)) :=
  (C10_divisions_safe (initSim (-3) 3) (by norm_num) (by norm_num)).2.2

/-- Claim C2: `calculate_welfare` returns consumer surplus
`(1/2)*(demand_intercept - price)*quantity`, producer surplus
`(1/2)*((price - tax_rate) - supply_intercept)*quantity`, tax revenue
`tax_rate*quantity`, their sum as total welfare, and
`max 0 (zeroTaxTotalWelfare - total_welfare)` as deadweight loss, where
`zeroTaxTotalWelfare` is the total welfare at the equilibrium re-solved with
`tax_rate = 0`. -/
theorem C2_welfare_formulas (s : MarketSimulator)
    (hd : s.demand_elasticity < 0) (hs : 0 < s.supply_elasticity)
    (ht : 0 ≤ s.tax_rate) :
    (calculate_welfare s).2.1
      = (1/2) * (s.demand_intercept - s.equilibrium_price) * s.equilibrium_quantity
    ∧ (calculate_welfare s).2.2.1
      = (1/2) * ((s.equilibrium_price - s.tax_rate) - s.supply_intercept)
          * s.equilibrium_quantity
    ∧ (calculate_welfare s).2.2.2.1 = s.tax_rate * s.equilibrium_quantity
    ∧ (calculate_welfare s).2.2.2.2.1
      = (calculate_welfare s).2.1 + (calculate_welfare s).2.2.1
          + (calculate_welfare s).2.2.2.1
    ∧ (calculate_welfare s).2.2.2.2.2
      = max 0 (zeroTaxTotalWelfare s - (calculate_welfare s).2.2.2.2.1) := by
  refine ⟨rfl, rfl, rfl, rfl, ?_⟩
  simp only [calculate_welfare, zeroTaxTotalWelfare, totalWelfareAt,
    find_equilibrium_fst_di, find_equilibrium_fst_si, find_equilibrium_fst_tax,
    find_equilibrium_fst_price, find_equilibrium_fst_qty]
  congr 1
  ring

/-- Witness for C2 at the default simulator. -/
theorem C2_witness :
    (calculate_welfare (initSim (-3) 3)).2.2.2.1
      = (initSim (-3) 3).tax_rate * (initSim (-3) 3).equilibrium_quantity :=
  (C2_welfare_formulas (initSim (-3) 3)
    (by norm_num) (by norm_num) (by norm_num)).2.2.1

/-- Claim C3 counterexample: with elasticities (-3, 3) and tax_rate = 100 the
solver clamps the quantity to 0 while the demand at the returned price is -50,
so the returned quantity differs from `demand_function price` by 50, far more
than the 0.1 tolerance the claim allows even in the clamped case. -/
theorem C3_counterexample :
    (find_equilibrium { initSim (-3) 3 with tax_rate := 100 }).2.2 = 0
    ∧ demand_function (find_equilibrium { initSim (-3) 3 with tax_rate := 100 }).1
        (find_equilibrium { initSim (-3) 3 with tax_rate := 100 }).2.1 = -50
    ∧ (1/10 : ℚ)
        < (find_equilibrium { initSim (-3) 3 with tax_rate := 100 }).2.2
          - demand_function (find_equilibrium { initSim (-3) 3 with tax_rate := 100 }).1
              (find_equilibrium { initSim (-3) 3 with tax_rate := 100 }).2.1 := by
  norm_num [initSim, update_curves, recompute_intercepts, find_equilibrium,
    demand_function, max_def]

/-- Claim C3 as amended: for demand_elasticity < 0 < supply_elasticity and
tax_rate ≥ 0, the returned price equates demand and taxed supply exactly (so
in particular within the 0.1 tolerance), and the returned quantity is
`max 0 (demand_function price)`, equal to `demand_function price` exactly
whenever that demand is nonnegative; in the clamped case the quantity is 0 and
may differ from the (negative) demand by more than the tolerance. -/
theorem C3_amended_invariant (s : MarketSimulator)
    (hd : s.demand_elasticity < 0) (hs : 0 < s.supply_elasticity)
    (ht : 0 ≤ s.tax_rate) :
    demand_function (find_equilibrium s).1 (find_equilibrium s).2.1
      = taxed_supply_function (find_equilibrium s).1 (find_equilibrium s).2.1
    ∧ (find_equilibrium s).2.2
        = max 0 (demand_function (find_equilibrium s).1 (find_equilibrium s).2.1)
    ∧ (0 ≤ demand_function (find_equilibrium s).1 (find_equilibrium s).2.1 →
        (find_equilibrium s).2.2
          = demand_function (find_equilibrium s).1 (find_equilibrium s).2.1) := by
  have hden : s.supply_elasticity - s.demand_elasticity ≠ 0 := by
    have : 0 < s.supply_elasticity - s.demand_elasticity := by linarith
    exact this.ne'
  refine ⟨?_, rfl, fun h => max_eq_right h⟩
  show s.demand_elasticity * ((find_equilibrium s).2.1 - s.demand_intercept)
    = s.supply_elasticity * (((find_equilibrium s).2.1 - s.tax_rate) - s.supply_intercept)
  rw [find_equilibrium_price_def]
  field_simp
  ring

/-- Witness for C3 as amended, at the default simulator. -/
theorem C3_witness :
    (find_equilibrium (initSim (-3) 3)).2.2
      = max 0 (demand_function (find_equilibrium (initSim (-3) 3)).1
          (find_equilibrium (initSim (-3) 3)).2.1) :=
  (C3_amended_invariant (initSim (-3) 3)
    (by norm_num) (by norm_num) (by norm_num)).2.1

/-- Claim C4, evaluation of the defect: with elasticities (-3, 3) and
tax_rate = 2 the solved state has equilibrium price 11 and quantity 97;
`calculate_welfare` restores tax_rate to 2 but leaves the stored equilibrium
at the zero-tax counterfactual values (price 10, quantity 100), so the
observable state is changed by the call. -/
theorem C4_state_clobbered :
    (find_equilibrium { initSim (-3) 3 with tax_rate := 2 }).1.equilibrium_price = 11
    ∧ (find_equilibrium { initSim (-3) 3 with tax_rate := 2 }).1.equilibrium_quantity = 97
    ∧ (calculate_welfare
        (find_equilibrium { initSim (-3) 3 with tax_rate := 2 }).1).1.tax_rate = 2
    ∧ (calculate_welfare
        (find_equilibrium { initSim (-3) 3 with tax_rate := 2 }).1).1.equilibrium_price = 10
    ∧ (calculate_welfare
        (find_equilibrium { initSim (-3) 3 with tax_rate := 2 }).1).1.equilibrium_quantity
        = 100 := by
  norm_num [initSim, update_curves, recompute_intercepts, find_equilibrium,
    calculate_welfare, demand_function, max_def]

/-- Claim C5 counterexample: updating the tax rate through the `update`
callback is a successful mutating call, yet the history length does not grow
by one (it stays 0: nothing is ever appended). -/
theorem C5_counterexample :
    (update_tax (initSim (-3) 3) 2).history.length
      ≠ (initSim (-3) 3).history.length + 1 := by
  have h : (update_tax (initSim (-3) 3) 2).history = ([] : List (ℚ × ℚ × ℚ × ℚ)) := rfl
  have h0 : (initSim (-3) 3).history = ([] : List (ℚ × ℚ × ℚ × ℚ)) := rfl
  rw [h, h0]
  simp

/-- Claim C5 as amended: no operation of the program ever appends to the
history; it is initialised empty by the constructor and left unchanged by the
tax and elasticity mutation callbacks, so its length never grows. -/
theorem C5_amended_no_append (s : MarketSimulator) (val dVal sVal : ℚ) :
    (update_tax s val).history = s.history
    ∧ (update_elasticity s dVal sVal).history = s.history
    ∧ (initSim dVal sVal).history = [] :=
  ⟨rfl, rfl, rfl⟩

/-- Claim C8 counterexample: setting both elasticities to 3 (a degenerate
configuration) is accepted by the slider callback, the state is updated, and
the degenerate parameters are fed to `find_equilibrium`, whose division by
`supply_elasticity - demand_elasticity = 0` is what fails (modelled by the
checked solver returning `none`); there is no rejection before solving. -/
theorem C8_counterexample :
    (set_elasticities (initSim (-3) 3) 3 3).demand_elasticity
      = (set_elasticities (initSim (-3) 3) 3 3).supply_elasticity
    ∧ (set_elasticities (initSim (-3) 3) 3 3).supply_elasticity = 3
    ∧ find_equilibriumChecked
        (recompute_intercepts (set_elasticities (initSim (-3) 3) 3 3)) = none
    ∧ update_curvesChecked (set_elasticities (initSim (-3) 3) 3 3) = none := by
  refine ⟨rfl, rfl, ?_, ?_⟩
  · simp [find_equilibriumChecked, set_elasticities]
  · simp [update_curvesChecked, recompute_interceptsChecked, set_elasticities,
      find_equilibriumChecked]

/-- Claim C8 as amended: the code never rejects the degenerate configuration:
assigning equal elasticities updates the state unconditionally and the solve
is always attempted, failing inside `update_curves` with a zero denominator
(either the intercept division when the value is 0, or the solver division by
`supply_elasticity - demand_elasticity = 0`), rather than surfacing an
InvalidParameters rejection at the mutation boundary. -/
theorem C8_amended_no_rejection (s : MarketSimulator) (v : ℚ) :
    (set_elasticities s v v).demand_elasticity = v
    ∧ (set_elasticities s v v).supply_elasticity = v
    ∧ update_curvesChecked (set_elasticities s v v) = none := by
  refine ⟨rfl, rfl, ?_⟩
  by_cases hv : v = 0
  · simp [update_curvesChecked, recompute_interceptsChecked, set_elasticities, hv]
  · simp [update_curvesChecked, recompute_interceptsChecked, set_elasticities, hv,
      find_equilibriumChecked]

/-- Quantity returned by `find_equilibrium` on a state whose intercepts are
anchored by `update_curves`: the clamped linear function of the tax rate. -/
lemma find_equilibrium_qty_formula (s : MarketSimulator)
    (hd : s.demand_elasticity < 0) (hs : 0 < s.supply_elasticity)
    (hdi : s.demand_intercept = 10 - 100 / s.demand_elasticity)
    (hsi : s.supply_intercept = 10 - 100 / s.supply_elasticity) :
    (find_equilibrium s).2.2
      = max 0 ((-s.demand_elasticity) * s.supply_elasticity
            / (s.supply_elasticity - s.demand_elasticity)
          * ((100 / s.supply_elasticity - 100 / s.demand_elasticity) - s.tax_rate)) := by
  have hd0 : s.demand_elasticity ≠ 0 := ne_of_lt hd
  have hs0 : s.supply_elasticity ≠ 0 := ne_of_gt hs
  have hden : s.supply_elasticity - s.demand_elasticity ≠ 0 := by
    have : 0 < s.supply_elasticity - s.demand_elasticity := by linarith
    exact this.ne'
  rw [find_equilibrium_qty_def]
  congr 1
  rw [demand_function, find_equilibrium_price_def, hdi, hsi]
  field_simp
  ring

/-- The deadweight loss returned by `calculate_welfare`, expressed through the
zero-tax re-solved quantity and the stored equilibrium quantity; the stored
equilibrium price cancels out of both welfare totals. -/
lemma calculate_welfare_dwl_eq (s : MarketSimulator) :
    (calculate_welfare s).2.2.2.2.2
      = max 0 ((1/2) * (find_equilibrium { s with tax_rate := 0 }).2.2
            * (s.demand_intercept - s.supply_intercept)
          - (1/2) * s.equilibrium_quantity
            * ((s.demand_intercept - s.supply_intercept) + s.tax_rate)) := by
  simp only [calculate_welfare, find_equilibrium_fst_di, find_equilibrium_fst_si]
  congr 1
  ring

/-- Total-welfare monotonicity kernel: with positive slope factor `A` and
choke tax `B`, the clamped welfare `(1/2)*max 0 (A*(B-t))*(B+t)` is
nonincreasing in the tax `t` on `t ≥ 0`. -/
lemma clamped_welfare_mono (A B t1 t2 : ℚ) (hA : 0 < A) (hB : 0 < B)
    (h1 : 0 ≤ t1) (h12 : t1 ≤ t2) :
    (1/2) * max 0 (A * (B - t2)) * (B + t2)
      ≤ (1/2) * max 0 (A * (B - t1)) * (B + t1) := by
  rcases le_or_lt (A * (B - t2)) 0 with h | h
  · rw [max_eq_left h]
    have h0 : 0 ≤ max 0 (A * (B - t1)) := le_max_left _ _
    have hb1 : 0 ≤ B + t1 := by linarith
    nlinarith [mul_nonneg h0 hb1]
  · have hBt2 : 0 < B - t2 := by nlinarith
    have hBt1 : 0 < B - t1 := by linarith
    rw [max_eq_right h.le, max_eq_right (by nlinarith : (0:ℚ) ≤ A * (B - t1))]
    have hsq : t1 ^ 2 ≤ t2 ^ 2 := by nlinarith
    nlinarith [mul_nonneg hA.le (sub_nonneg.mpr hsq)]

/-- Claim C6: with elasticities fixed (demand negative, supply positive) and
two tax rates 0 ≤ t1 ≤ t2, running the update pipeline (set the tax, re-solve,
account welfare) gives a deadweight loss at t2 at least that at t1, and an
equilibrium quantity at t2 at most that at t1. -/
theorem C6_tax_monotone (de se t1 t2 : ℚ)
    (hd : de < 0) (hs : 0 < se) (h1 : 0 ≤ t1) (h12 : t1 ≤ t2) :
    (calculate_welfare
        (find_equilibrium { initSim de se with tax_rate := t1 }).1).2.2.2.2.2
      ≤ (calculate_welfare
          (find_equilibrium { initSim de se with tax_rate := t2 }).1).2.2.2.2.2
    ∧ (find_equilibrium { initSim de se with tax_rate := t2 }).2.2
      ≤ (find_equilibrium { initSim de se with tax_rate := t1 }).2.2 := by
  have hd0 : de ≠ 0 := ne_of_lt hd
  have hs0 : se ≠ 0 := ne_of_gt hs
  have hden : (0:ℚ) < se - de := by linarith
  have hA : 0 < (-de) * se / (se - de) := div_pos (mul_pos (by linarith) hs) hden
  have hB : 0 < 100 / se - 100 / de := by
    have hpos : (0:ℚ) < 100 / se := by positivity
    have hneg : 100 / de < 0 := div_neg_of_pos_of_neg (by norm_num) hd
    linarith
  have hqty : ∀ t : ℚ,
      (find_equilibrium { initSim de se with tax_rate := t }).2.2
        = max 0 ((-de) * se / (se - de) * ((100 / se - 100 / de) - t)) := by
    intro t
    have h := find_equilibrium_qty_formula { initSim de se with tax_rate := t }
      (by simpa using hd) (by simpa using hs) (by simp) (by simp)
    simpa using h
  have hzero : ∀ t : ℚ,
      (find_equilibrium
          { (find_equilibrium { initSim de se with tax_rate := t }).1 with
              tax_rate := 0 }).2.2
        = (-de) * se / (se - de) * (100 / se - 100 / de) := by
    intro t
    have h := find_equilibrium_qty_formula
      { (find_equilibrium { initSim de se with tax_rate := t }).1 with tax_rate := 0 }
      (by simpa using hd) (by simpa using hs) (by simp) (by simp)
    simp only [find_equilibrium_fst_de, find_equilibrium_fst_se,
      find_equilibrium_fst_tax, find_equilibrium_fst_di, find_equilibrium_fst_si,
      initSim_de, initSim_se, sub_zero] at h ⊢
    rw [h]
    exact max_eq_right (mul_pos hA hB).le
  have hdwl : ∀ t : ℚ,
      (calculate_welfare
          (find_equilibrium { initSim de se with tax_rate := t }).1).2.2.2.2.2
        = max 0 ((1/2) * ((-de) * se / (se - de) * (100 / se - 100 / de))
              * (100 / se - 100 / de)
            - (1/2) * max 0 ((-de) * se / (se - de) * ((100 / se - 100 / de) - t))
              * ((100 / se - 100 / de) + t)) := by
    intro t
    rw [calculate_welfare_dwl_eq, hzero t]
    have hq : (find_equilibrium { initSim de se with tax_rate := t }).1.equilibrium_quantity
        = max 0 ((-de) * se / (se - de) * ((100 / se - 100 / de) - t)) := by
      rw [find_equilibrium_fst_qty]
      exact hqty t
    rw [hq]
    have hdi : (find_equilibrium { initSim de se with tax_rate := t }).1.demand_intercept
        = 10 - 100 / de := by simp
    have hsi : (find_equilibrium { initSim de se with tax_rate := t }).1.supply_intercept
        = 10 - 100 / se := by simp
    have htax : (find_equilibrium { initSim de se with tax_rate := t }).1.tax_rate = t := by
      simp
    rw [hdi, hsi, htax]
    congr 1
    ring
  constructor
  · rw [hdwl t1, hdwl t2]
    refine max_le_max le_rfl ?_
    have := clamped_welfare_mono ((-de) * se / (se - de)) (100 / se - 100 / de)
      t1 t2 hA hB h1 h12
    linarith
  · rw [hqty t1, hqty t2]
    refine max_le_max le_rfl ?_
    have hstep : (100 / se - 100 / de) - t2 ≤ (100 / se - 100 / de) - t1 := by linarith
    exact mul_le_mul_of_nonneg_left hstep hA.le

/-- Witness for C6 at the default elasticities and taxes 1 ≤ 2. -/
theorem C6_witness :
    (find_equilibrium { initSim (-3) 3 with tax_rate := 2 }).2.2
      ≤ (find_equilibrium { initSim (-3) 3 with tax_rate := 1 }).2.2 :=
  (C6_tax_monotone (-3) 3 1 2 (by norm_num) (by norm_num) (by norm_num)
    (by norm_num)).2

